import Mathlib

/-!
Shallow embedding of the chat transcript controller of chatbot-pd-fe
(the active App component: default greeting transcript, draft input,
in-flight flag, handleSendMessage with its success and error settlement,
the localStorage persist and restore effects, and getOrCreateCid).
Timestamps are epoch milliseconds modelled as Nat; the remote endpoint
and the random source are oracle parameters.
-/

set_option maxHeartbeats 1000000

namespace ChatbotFe

/-- Sender tag of a transcript entry, the closed union from the source. -/
inductive Sender
  | user
  | bot
  | loading
deriving DecidableEq

/-- Message record from the source: id, text, sender, timestamp (epoch ms). -/
structure Message where
  id : Nat
  text : String
  sender : Sender
  timestamp : Nat
deriving DecidableEq

/-- State held by the App component: transcript, draft input, in-flight flag. -/
structure AppState where
  messages : List Message
  input : String
  loading : Bool
deriving DecidableEq

/-- Default greeting transcript used to initialise the messages state. -/
def initialMessages (now : Nat) : List Message :=
  [{ id := 1, text := "Hello! Ask me about one of our Brathay properties.",
     sender := Sender.bot, timestamp := now }]

/-- Initial component state: greeting transcript, empty draft, flag false. -/
def initState (now : Nat) : AppState :=
  { messages := initialMessages now, input := "", loading := false }

/-- Fixed fallback text used when the payload reply field is absent or empty. -/
def fallbackReply : String := "Sorry, no response received."

/-- Fixed user-facing error text appended by the catch branch. -/
def errorReply : String := "Error: Unable to reach the chatbot service."

/-- Text of the transient typing indicator message. -/
def typingIndicator : String := "…"

/-- Model of the JS String.prototype.trim used by the source: remove
whitespace from both ends of the string. -/
def jsTrim (s : String) : String :=
  String.mk (((s.data.dropWhile Char.isWhitespace).reverse.dropWhile Char.isWhitespace).reverse)

/-- Synchronous phase of handleSendMessage: the empty-trim guard, the user
message append (id computed from the stale messages length, text stored
untrimmed), clearing the draft, setting the in-flight flag and appending the
loading placeholder. Returns the new state and the request payload
(the question field), none when no request is issued. -/
def handleSendMessageStart (s : AppState) (now : Nat) : AppState × Option String :=
  if jsTrim s.input = "" then (s, none)
  else
    let newUserMessage : Message :=
      { id := s.messages.length + 1, text := s.input,
        sender := Sender.user, timestamp := now }
    let userInput := s.input
    let loadingMessage : Message :=
      { id := s.messages.length + 2, text := typingIndicator,
        sender := Sender.loading, timestamp := now }
    ({ messages := (s.messages ++ [newUserMessage]) ++ [loadingMessage],
       input := "",
       loading := true },
     some userInput)

/-- Reply text computed from the payload: the response field when it is a
present, non-empty string, otherwise the fixed fallback (the source uses a
JS truthiness test, which maps both absent and empty to the fallback). -/
def botReplyOf (response : Option String) : String :=
  match response with
  | some r => if r = "" then fallbackReply else r
  | none => fallbackReply

/-- Settlement update shared by both branches: filter out every
loading-tagged message and append one bot message whose id is the
pre-filter list length plus one. -/
def settleMessages (prev : List Message) (text : String) (now : Nat) : List Message :=
  prev.filter (fun msg => msg.sender ≠ Sender.loading)
    ++ [{ id := prev.length + 1, text := text, sender := Sender.bot, timestamp := now }]

/-- Resolution of handleSendMessage on a fulfilled request with a parsed
payload: settle with the computed reply, then the finally block clears the
in-flight flag. -/
def handleSendMessageSuccess (s : AppState) (response : Option String) (now : Nat) : AppState :=
  { s with messages := settleMessages s.messages (botReplyOf response) now,
           loading := false }

/-- Resolution of handleSendMessage on any thrown fault: the catch branch
settles with the fixed error text, then the finally block clears the
in-flight flag. The fault is consumed here and not rethrown. -/
def handleSendMessageError (s : AppState) (now : Nat) : AppState :=
  { s with messages := settleMessages s.messages errorReply now,
           loading := false }

/-- Decodable loading test used to count placeholders. -/
def isLoading (m : Message) : Bool := decide (m.sender = Sender.loading)

/-- Number of loading-tagged messages in a transcript. -/
def loadingCount (msgs : List Message) : Nat := msgs.countP isLoading

/-- One UI event of the controller: editing the draft, a gated submit
(the send affordances are disabled while the in-flight flag is set), or the
resolution or rejection of the outstanding request. -/
inductive Step : AppState → AppState → Prop
  | typeDraft (s : AppState) (t : String) : Step s { s with input := t }
  | submit (s : AppState) (now : Nat) (hGate : s.loading = false) :
      Step s (handleSendMessageStart s now).1
  | resolve (s : AppState) (response : Option String) (now : Nat) (hFlight : s.loading = true) :
      Step s (handleSendMessageSuccess s response now)
  | reject (s : AppState) (now : Nat) (hFlight : s.loading = true) :
      Step s (handleSendMessageError s now)

/-- States reachable from the default greeting state by UI events. -/
inductive Reachable : AppState → Prop
  | init (now : Nat) : Reachable (initState now)
  | step {s t : AppState} : Reachable s → Step s t → Reachable t

/-- Decimal digit to character. -/
def digitChar (d : Nat) : Char := Char.ofNat (48 + d)

/-- Little-endian decimal digits of a number, with explicit fuel so the
definition is structurally recursive. -/
def encDigitsAux : Nat → Nat → List Char
  | 0, _ => []
  | fuel + 1, n => if n = 0 then [] else digitChar (n % 10) :: encDigitsAux fuel (n / 10)

/-- Inverse of the digit encoding. -/
def decDigits : List Char → Nat
  | [] => 0
  | c :: cs => (c.toNat - 48) + 10 * decDigits cs

/-- Modelled from the spec: the platform Date to storage-string conversion
performed by JSON.stringify (the timestamp is serialized as an ISO-like
string) together with the parse in new Date(m.timestamp). These are browser
built-ins, not repository code; the spec requires the string to time-value
conversion to be lossless to minute-level display precision, so the codec is
modelled as a lossless decimal encoding of the epoch-millisecond value. -/
def encodeTs (t : Nat) : String := String.mk (encDigitsAux t t)

/-- Modelled from the spec: parse of the persisted timestamp string, the
inverse of encodeTs. -/
def decodeTs (s : String) : Nat := decDigits s.data

/-- Shape of one message as held in the localStorage blob: id, text and
sender survive JSON serialization unchanged, the timestamp becomes a
string. -/
structure StoredMessage where
  id : Nat
  text : String
  sender : Sender
  timestamp : String
deriving DecidableEq

/-- One message as serialized by the persist effect. -/
def persistMessage (m : Message) : StoredMessage :=
  { id := m.id, text := m.text, sender := m.sender, timestamp := encodeTs m.timestamp }

/-- Persist effect: serialize the full current transcript to the storage
blob whenever the messages state changes. -/
def persist (msgs : List Message) : List StoredMessage :=
  msgs.map persistMessage

/-- One stored message mapped back by the restore effect, converting the
timestamp string back to a time value. -/
def restoreMessage (m : StoredMessage) : Message :=
  { id := m.id, text := m.text, sender := m.sender, timestamp := decodeTs m.timestamp }

/-- Restore effect run once at initialisation: a missing or unparseable blob
(none) keeps the current default transcript; a parsed blob replaces it only
when the parsed list is non-empty. -/
def restore (raw : Option (List StoredMessage)) (current : List Message) : List Message :=
  match raw with
  | none => current
  | some stored =>
    let parsed := stored.map restoreMessage
    if parsed.length ≠ 0 then parsed else current

/-- getOrCreateCid from the source: read the cached conversation id; the JS
falsiness test treats both a missing value and the empty string as absent,
in which case a freshly generated random token (the oracle argument) is
cached and returned. Returns the token and the storage slot after the
call. -/
def getOrCreateCid (stored : Option String) (fresh : String) : String × Option String :=
  match stored with
  | some cid => if cid = "" then (fresh, some fresh) else (cid, stored)
  | none => (fresh, some fresh)

/-- Concrete trace for the id-collision analysis: the default state. -/
def c4s0 : AppState := initState 0

/-- Draft edited to a first question. -/
def c4s1 : AppState := { c4s0 with input := "hi" }

/-- First submit: transcript gains the user message and the placeholder. -/
def c4s2 : AppState := (handleSendMessageStart c4s1 0).1

/-- First request resolves with a reply. -/
def c4s3 : AppState := handleSendMessageSuccess c4s2 (some "ok") 0

/-- Draft edited to a second question. -/
def c4s4 : AppState := { c4s3 with input := "again" }

/-- Second submit: the freshly assigned user id collides with the settled
bot id. -/
def c4s5 : AppState := (handleSendMessageStart c4s4 0).1

/-- Concrete mid-flight state used for the persistence analysis: a submit
has appended the placeholder and the request is outstanding. -/
def c10Mid : AppState := (handleSendMessageStart { initState 0 with input := "hello" } 0).1

/-- Component state at a later initialisation that restores the blob
persisted from the mid-flight transcript: the in-flight flag starts false. -/
def c10Restored : AppState :=
  { messages := restore (some (persist c10Mid.messages)) (initialMessages 7),
    input := "", loading := false }

/-! Helper lemmas shared by the claim theorems. -/

theorem loadingCount_append (a b : List Message) :
    loadingCount (a ++ b) = loadingCount a + loadingCount b := by
  simp [loadingCount, List.countP_append]

theorem loadingCount_filter_erase (l : List Message) :
    loadingCount (l.filter (fun msg => msg.sender ≠ Sender.loading)) = 0 := by
  rw [loadingCount, List.countP_eq_zero]
  intro a ha
  have h := List.of_mem_filter ha
  simp only [decide_not, Bool.not_eq_true', decide_eq_false_iff_not] at h
  simpa [isLoading] using h

theorem loadingCount_settle (l : List Message) (text : String) (now : Nat) :
    loadingCount (settleMessages l text now) = 0 := by
  simp [settleMessages, loadingCount_append, loadingCount_filter_erase, loadingCount,
    List.countP_cons, isLoading]

theorem botReplyOf_ne_empty (response : Option String) : botReplyOf response ≠ "" := by
  cases response with
  | none => simp [botReplyOf, fallbackReply]
  | some r =>
    by_cases hr : r = "" <;> simp [botReplyOf, hr, fallbackReply]

theorem loading_flag_inv (s : AppState) (h : Reachable s) :
    loadingCount s.messages = if s.loading then 1 else 0 := by
  induction h with
  | init now => simp [initState, initialMessages, loadingCount, List.countP_cons, isLoading]
  | step hr hstep ih =>
    rename_i sa ta
    cases hstep with
    | typeDraft t => exact ih
    | submit now hGate =>
      have h0 : loadingCount sa.messages = 0 := by rw [ih, hGate]; rfl
      by_cases he : jsTrim sa.input = ""
      · simpa [handleSendMessageStart, he, hGate] using h0
      · rw [loadingCount, List.countP_eq_zero] at h0
        simp [handleSendMessageStart, he, loadingCount_append, loadingCount,
          List.countP_cons, isLoading]
        intro a ha
        simpa [isLoading] using h0 a ha
    | resolve response now hFlight =>
      simp [handleSendMessageSuccess, loadingCount_settle]
    | reject now hFlight =>
      simp [handleSendMessageError, loadingCount_settle]

theorem digitChar_toNat (d : Nat) (hd : d < 10) : (digitChar d).toNat = 48 + d := by
  interval_cases d <;> rfl

theorem decDigits_encDigitsAux (fuel : Nat) :
    ∀ n, n ≤ fuel → decDigits (encDigitsAux fuel n) = n := by
  induction fuel with
  | zero =>
    intro n hn
    interval_cases n
    rfl
  | succ fuel ih =>
    intro n hn
    by_cases h0 : n = 0
    · simp [encDigitsAux, h0, decDigits]
    · have hdiv : n / 10 ≤ fuel := by
        have : n / 10 < n := Nat.div_lt_self (Nat.pos_of_ne_zero h0) (by omega)
        omega
      have hd : (digitChar (n % 10)).toNat = 48 + n % 10 :=
        digitChar_toNat _ (Nat.mod_lt _ (by omega))
      simp [encDigitsAux, h0, decDigits, ih _ hdiv, hd]
      omega

theorem decodeTs_encodeTs (t : Nat) : decodeTs (encodeTs t) = t := by
  simpa [encodeTs, decodeTs] using decDigits_encDigitsAux t t (Nat.le_refl t)

theorem restoreMessage_persistMessage (m : Message) :
    restoreMessage (persistMessage m) = m := by
  simp [restoreMessage, persistMessage, decodeTs_encodeTs]

/-! Claim theorems. -/

/-- C1: on a fulfilled request with a parsed payload, the resolution removes
every loading-tagged message, appends exactly one bot message whose text is
the reply field when that field is a present non-empty string and the fixed
fallback when it is absent or empty, and the settled text is never the empty
string. -/
theorem c1_success_settles (s : AppState) (response : Option String) (now : Nat) :
    (handleSendMessageSuccess s response now).messages
      = s.messages.filter (fun msg => msg.sender ≠ Sender.loading)
        ++ [{ id := s.messages.length + 1, text := botReplyOf response,
              sender := Sender.bot, timestamp := now }]
    ∧ loadingCount (handleSendMessageSuccess s response now).messages = 0
    ∧ botReplyOf response ≠ ""
    ∧ (∀ r, response = some r → r ≠ "" → botReplyOf response = r)
    ∧ ((response = none ∨ response = some "") → botReplyOf response = fallbackReply) := by
  refine ⟨rfl, ?_, botReplyOf_ne_empty response, ?_, ?_⟩
  · simp [handleSendMessageSuccess, loadingCount_settle]
  · intro r hre hr
    subst hre
    simp [botReplyOf, hr]
  · rintro (rfl | rfl) <;> simp [botReplyOf]

/-- Witness for C1 at concrete payloads: a non-empty reply is kept verbatim
and an absent or empty reply field settles as the fixed fallback. -/
theorem c1_success_settles_witness :
    botReplyOf (some "hi there") = "hi there"
    ∧ botReplyOf (some "") = fallbackReply
    ∧ botReplyOf none = fallbackReply :=
  ⟨(c1_success_settles (initState 0) (some "hi there") 0).2.2.2.1 "hi there" rfl (by decide),
   (c1_success_settles (initState 0) (some "") 0).2.2.2.2 (Or.inr rfl),
   (c1_success_settles (initState 0) none 0).2.2.2.2 (Or.inl rfl)⟩

/-- C2 counterexample: on a rejected request the settled bot text is the
fixed constant of the source, which is not the string named by the claim. -/
theorem c2_error_text_counterexample :
    ((handleSendMessageError (initState 0) 0).messages.getLast?).map Message.text
      = some errorReply
    ∧ errorReply ≠ "unable to reach the chatbot service" := by
  decide

/-- C2 amended: on any thrown fault the catch branch removes every
loading-tagged message and appends exactly one bot message whose text is the
fixed user-facing string of the source, the error constant, and the fault is
consumed (the resolution is a total state update and the flag ends false). -/
theorem c2_error_settles (s : AppState) (now : Nat) :
    (handleSendMessageError s now).messages
      = s.messages.filter (fun msg => msg.sender ≠ Sender.loading)
        ++ [{ id := s.messages.length + 1, text := errorReply,
              sender := Sender.bot, timestamp := now }]
    ∧ loadingCount (handleSendMessageError s now).messages = 0
    ∧ errorReply = "Error: Unable to reach the chatbot service."
    ∧ (handleSendMessageError s now).loading = false := by
  refine ⟨rfl, ?_, rfl, rfl⟩
  simp [handleSendMessageError, loadingCount_settle]

/-- C3: every state reachable from the default greeting under gated submit,
resolve and reject events holds at most one loading-tagged message, and each
resolution appends its bot message to the transcript from which every
loading-tagged message has already been removed. -/
theorem c3_at_most_one_loading (s : AppState) (h : Reachable s) :
    loadingCount s.messages ≤ 1
    ∧ ∀ response now,
        (handleSendMessageSuccess s response now).messages
          = s.messages.filter (fun msg => msg.sender ≠ Sender.loading)
            ++ [{ id := s.messages.length + 1, text := botReplyOf response,
                  sender := Sender.bot, timestamp := now }]
        ∧ (handleSendMessageError s now).messages
          = s.messages.filter (fun msg => msg.sender ≠ Sender.loading)
            ++ [{ id := s.messages.length + 1, text := errorReply,
                  sender := Sender.bot, timestamp := now }] := by
  refine ⟨?_, fun response now => ⟨rfl, rfl⟩⟩
  rw [loading_flag_inv s h]
  by_cases hfl : s.loading = true <;> simp [hfl]

/-- Witness for C3 at the initial state. -/
theorem c3_at_most_one_loading_witness :
    Reachable (initState 0)
    ∧ (loadingCount (initState 0).messages ≤ 1
      ∧ ∀ response now,
          (handleSendMessageSuccess (initState 0) response now).messages
            = (initState 0).messages.filter (fun msg => msg.sender ≠ Sender.loading)
              ++ [{ id := (initState 0).messages.length + 1, text := botReplyOf response,
                    sender := Sender.bot, timestamp := now }]
          ∧ (handleSendMessageError (initState 0) now).messages
            = (initState 0).messages.filter (fun msg => msg.sender ≠ Sender.loading)
              ++ [{ id := (initState 0).messages.length + 1, text := errorReply,
                    sender := Sender.bot, timestamp := now }]) :=
  ⟨Reachable.init 0, c3_at_most_one_loading (initState 0) (Reachable.init 0)⟩

/-- C4: the id assignment of the source is not unique on reachable states.
From the default greeting: submit a first question, resolve it, submit a
second question. The settled bot message takes id four (pre-filter length
three plus one) while the transcript then has length three, so the second
user message also takes id four: the transcript reaches ids one, two, four,
four, five, and id uniqueness fails. -/
theorem c4_duplicate_id :
    Reachable c4s5
    ∧ c4s5.messages.map Message.id = [1, 2, 4, 4, 5]
    ∧ ¬ (c4s5.messages.map Message.id).Nodup := by
  refine ⟨?_, by decide, by decide⟩
  have h0 : Reachable c4s0 := Reachable.init 0
  have h1 : Reachable c4s1 := h0.step (Step.typeDraft c4s0 "hi")
  have h2 : Reachable c4s2 := h1.step (Step.submit c4s1 0 (by decide))
  have h3 : Reachable c4s3 := h2.step (Step.resolve c4s2 (some "ok") 0 (by decide))
  have h4 : Reachable c4s4 := h3.step (Step.typeDraft c4s3 "again")
  exact h4.step (Step.submit c4s4 0 (by decide))

/-- C5 counterexample: submitting a draft with surrounding whitespace stores
the untrimmed original text in the user message, not the trimmed text. -/
theorem c5_stores_untrimmed_counterexample :
    ((handleSendMessageStart { initState 0 with input := " hi " } 0).1.messages.map
        Message.text)
      = ["Hello! Ask me about one of our Brathay properties.", " hi ", typingIndicator]
    ∧ jsTrim " hi " = "hi"
    ∧ (" hi " : String) ≠ "hi" := by
  decide

/-- C5 amended: for every input whose trimmed form is non-empty, the first
append of submit is a user message whose stored text is the original
untrimmed input, with the freshly assigned id and the current timestamp;
the draft is then cleared and the untrimmed text is also the request
payload. -/
theorem c5_appends_untrimmed_user_message (s : AppState) (now : Nat)
    (h : jsTrim s.input ≠ "") :
    (handleSendMessageStart s now).1.messages
      = s.messages
        ++ [{ id := s.messages.length + 1, text := s.input,
              sender := Sender.user, timestamp := now },
            { id := s.messages.length + 2, text := typingIndicator,
              sender := Sender.loading, timestamp := now }]
    ∧ (handleSendMessageStart s now).1.input = ""
    ∧ (handleSendMessageStart s now).2 = some s.input := by
  simp [handleSendMessageStart, h]

/-- Witness for C5 amended at a concrete whitespace-wrapped input. -/
theorem c5_appends_untrimmed_user_message_witness :
    jsTrim (" hi " : String) ≠ ""
    ∧ ((handleSendMessageStart { initState 0 with input := " hi " } 0).1.messages
        = (initialMessages 0)
          ++ [{ id := 2, text := " hi ", sender := Sender.user, timestamp := 0 },
              { id := 3, text := typingIndicator, sender := Sender.loading, timestamp := 0 }]
      ∧ (handleSendMessageStart { initState 0 with input := " hi " } 0).1.input = ""
      ∧ (handleSendMessageStart { initState 0 with input := " hi " } 0).2 = some " hi ") :=
  ⟨by decide, c5_appends_untrimmed_user_message { initState 0 with input := " hi " } 0 (by decide)⟩

/-- C6: when the trimmed draft is empty the submit handler is a no-op: the
entire state, the transcript and the draft included, is unchanged and no
request payload is produced. -/
theorem c6_blank_submit_noop (s : AppState) (now : Nat) (h : jsTrim s.input = "") :
    handleSendMessageStart s now = (s, none) := by
  simp [handleSendMessageStart, h]

/-- Witness for C6 at a whitespace-only draft. -/
theorem c6_blank_submit_noop_witness :
    jsTrim ("   " : String) = ""
    ∧ handleSendMessageStart { initState 0 with input := "   " } 0
      = ({ initState 0 with input := "   " }, none) :=
  ⟨by decide, c6_blank_submit_noop { initState 0 with input := "   " } 0 (by decide)⟩

/-- C7: both resolutions of a submit, fulfilment and rejection, end with the
in-flight flag false; no outcome leaves it stuck true. -/
theorem c7_inflight_cleared (s : AppState) (response : Option String) (now : Nat) :
    (handleSendMessageSuccess s response now).loading = false
    ∧ (handleSendMessageError s now).loading = false :=
  ⟨rfl, rfl⟩

/-- C8: persisting a non-empty transcript and restoring it reproduces the
exact same sequence of messages: ids, text, sender and timestamp are all
equal, so in particular the timestamps agree to minute-level display
precision. -/
theorem c8_persist_restore_roundtrip (msgs current : List Message) (h : msgs ≠ []) :
    restore (some (persist msgs)) current = msgs := by
  have hmap : (persist msgs).map restoreMessage = msgs := by
    rw [persist, List.map_map]
    simp [Function.comp_def, restoreMessage_persistMessage]
  simp [restore, hmap, h]

/-- Witness for C8 at a concrete two-message transcript. -/
theorem c8_persist_restore_roundtrip_witness :
    ([{ id := 1, text := "a", sender := Sender.bot, timestamp := 123456 },
      { id := 2, text := "b", sender := Sender.user, timestamp := 654321 }]
        : List Message) ≠ []
    ∧ restore
        (some (persist
          [{ id := 1, text := "a", sender := Sender.bot, timestamp := 123456 },
           { id := 2, text := "b", sender := Sender.user, timestamp := 654321 }]))
        (initialMessages 0)
      = [{ id := 1, text := "a", sender := Sender.bot, timestamp := 123456 },
         { id := 2, text := "b", sender := Sender.user, timestamp := 654321 }] :=
  ⟨by decide,
   c8_persist_restore_roundtrip
     [{ id := 1, text := "a", sender := Sender.bot, timestamp := 123456 },
      { id := 2, text := "b", sender := Sender.user, timestamp := 654321 }]
     (initialMessages 0) (by decide)⟩

/-- C9 counterexample: with the empty string cached in the storage slot a
call does not return the cached token and does modify storage, because the
JS falsiness test treats the empty string as absent. -/
theorem c9_empty_token_counterexample :
    getOrCreateCid (some "") "abc" = ("abc", some "abc")
    ∧ ("abc" : String) ≠ ""
    ∧ (some "abc" : Option String) ≠ some "" := by
  decide

/-- C9 amended: when the freshly generated token is non-empty, a second call
after any first call returns the identical token and leaves storage exactly
as the first call left it; and a cached non-empty token is returned with
storage unmodified. The empty string is treated as absent by the falsiness
test, which is the only deviation from the claim. -/
theorem c9_idempotent_nonempty (stored : Option String) (fresh fresh2 : String)
    (h : fresh ≠ "") :
    getOrCreateCid (getOrCreateCid stored fresh).2 fresh2 = getOrCreateCid stored fresh
    ∧ ∀ cid, cid ≠ "" → getOrCreateCid (some cid) fresh = (cid, some cid) := by
  constructor
  · cases stored with
    | none => simp [getOrCreateCid, h]
    | some cid =>
      by_cases hc : cid = "" <;> simp [getOrCreateCid, hc, h]
  · intro cid hc
    simp [getOrCreateCid, hc]

/-- Witness for C9 amended at concrete tokens. -/
theorem c9_idempotent_nonempty_witness :
    ("abc" : String) ≠ ""
    ∧ getOrCreateCid (getOrCreateCid none "abc").2 "xyz" = getOrCreateCid none "abc"
    ∧ getOrCreateCid (some "tok") "abc" = ("tok", some "tok") :=
  ⟨by decide,
   (c9_idempotent_nonempty none "abc" "xyz" (by decide)).1,
   (c9_idempotent_nonempty none "abc" "xyz" (by decide)).2 "tok" (by decide)⟩

/-- C10: the persist effect serializes the full mid-flight transcript, the
loading placeholder included, and restoring that blob at a later
initialisation yields a transcript that contains a loading-tagged message
while the in-flight flag is false and no request is outstanding. -/
theorem c10_restored_orphan_loading :
    loadingCount c10Mid.messages = 1
    ∧ (persist c10Mid.messages).length = c10Mid.messages.length
    ∧ (persist c10Mid.messages).countP (fun m => decide (m.sender = Sender.loading)) = 1
    ∧ loadingCount c10Restored.messages = 1
    ∧ c10Restored.loading = false := by
  decide

end ChatbotFe
